import Mathlib

/-!
Shallow embedding of the drawing application (src/src/App.tsx).

Numbers: JavaScript numeric values are modelled by an arbitrary linear
ordered commutative ring; theorems about the pointer handlers instantiate
it at the real numbers, and the persistence layer works over the rationals
(the values that a JSON text denotes exactly).

Host primitives (the browser Math library, the JSON codec of the host and
the localStorage string store) are external collaborators of the program;
Math.sqrt and Math.hypot are passed to the handlers that call them, and the
store is modelled at the level of parsed JSON values, with an explicit case
for a stored string that JSON.parse rejects.
-/

/-- The shape discriminant, ShapeType in the source: one of
the string tags 'rectangle', 'circle', 'line'. -/
inductive ShapeType where
  | rectangle
  | circle
  | line
deriving DecidableEq

/-- The strokeStyle field: 'solid' | 'dashed'. -/
inductive StrokeStyle where
  | solid
  | dashed
deriving DecidableEq

/-- Variant-specific fields of the Shape union: RectangleShape carries
width, height, fill; CircleShape carries radius, fill; LineShape carries
x2, y2 and no fill. -/
inductive Geom (α : Type) where
  | rectangle (width height : α) (fill : String)
  | circle (radius : α) (fill : String)
  | line (x2 y2 : α)
deriving DecidableEq

/-- A shape record: the BaseShape fields id, x, y, stroke, strokeWidth,
strokeStyle, plus the variant geometry.  The `type` discriminant of the
source union is the constructor of `geom`. -/
structure Shape (α : Type) where
  id : String
  x : α
  y : α
  stroke : String
  strokeWidth : α
  strokeStyle : StrokeStyle
  geom : Geom α
deriving DecidableEq

/-- The component state of App: the useState cells shapes, tool,
selectedId, strokeColor, fillColor, strokeWidth, strokeStyle, isDrawing,
newShape. -/
structure AppState (α : Type) where
  shapes : List (Shape α)
  tool : ShapeType
  selectedId : Option String
  strokeColor : String
  fillColor : String
  strokeWidth : α
  strokeStyle : StrokeStyle
  isDrawing : Bool
  newShape : Option (Shape α)
deriving DecidableEq

variable {α : Type} [LinearOrderedCommRing α]

/-- The `type` discriminant of a geometry value. -/
def Geom.kind : Geom α → ShapeType
  | Geom.rectangle _ _ _ => ShapeType.rectangle
  | Geom.circle _ _ => ShapeType.circle
  | Geom.line _ _ => ShapeType.line

/-- The fill field of a geometry value; lines carry none. -/
def fillOf : Geom α → Option String
  | Geom.rectangle _ _ f => some f
  | Geom.circle _ f => some f
  | Geom.line _ _ => none

/-- Whether a shape is of line kind (`shape.type === 'line'`). -/
def isLine (s : Shape α) : Bool :=
  match s.geom with
  | Geom.line _ _ => true
  | _ => false

/-- handleMouseDown (App.tsx lines 74-126), the draft builder.  The guards
`e.target !== e.target.getStage()` (the click is on empty canvas) and
`!point` hold by assumption; the uuid produced by uuidv4() and the pointer
position are inputs.  Builds the zero-extent draft for the current tool,
stores it in newShape, sets isDrawing and clears the selection. -/
def handleMouseDown (st : AppState α) (id : String) (px py : α) : AppState α :=
  let shape : Shape α :=
    match st.tool with
    | ShapeType.rectangle =>
      { id := id, x := px, y := py, stroke := st.strokeColor,
        strokeWidth := st.strokeWidth, strokeStyle := st.strokeStyle,
        geom := Geom.rectangle 0 0 st.fillColor }
    | ShapeType.circle =>
      { id := id, x := px, y := py, stroke := st.strokeColor,
        strokeWidth := st.strokeWidth, strokeStyle := st.strokeStyle,
        geom := Geom.circle 0 st.fillColor }
    | ShapeType.line =>
      { id := id, x := px, y := py, stroke := st.strokeColor,
        strokeWidth := st.strokeWidth, strokeStyle := st.strokeStyle,
        geom := Geom.line px py }
  { st with newShape := some shape, isDrawing := true, selectedId := none }

/-- The geometry recomputation of handleMouseMove (App.tsx lines 135-147):
the spread copy `updated` of the draft with its geometry recomputed from
the new pointer position.  `sqrt` is the host Math.sqrt. -/
def moveDraft (sqrt : α → α) (ns : Shape α) (px py : α) : Shape α :=
  match ns.geom with
  | Geom.rectangle _ _ fill =>
    { ns with geom := Geom.rectangle (px - ns.x) (py - ns.y) fill }
  | Geom.circle _ fill =>
    { ns with geom :=
        Geom.circle (sqrt ((px - ns.x) * (px - ns.x) + (py - ns.y) * (py - ns.y))) fill }
  | Geom.line _ _ =>
    { ns with geom := Geom.line px py }

/-- handleMouseMove (App.tsx lines 128-150), the draft updater: a no-op
unless isDrawing and a draft exists (`if (!isDrawing || !newShape) return`),
otherwise replaces newShape with the recomputed draft. -/
def handleMouseMove (sqrt : α → α) (st : AppState α) (px py : α) : AppState α :=
  match st.isDrawing, st.newShape with
  | true, some ns => { st with newShape := some (moveDraft sqrt ns px py) }
  | _, _ => st

/-- A sequence of pointer-move events fed to handleMouseMove in order. -/
def processMoves (sqrt : α → α) (st : AppState α) (ps : List (α × α)) : AppState α :=
  ps.foldl (fun s p => handleMouseMove sqrt s p.1 p.2) st

/-- The discard condition of handleMouseUp (App.tsx lines 155-159):
`Math.abs(width) < 5 || Math.abs(height) < 5` for a rectangle,
`radius < 5` for a circle, `Math.hypot(x2 - x, y2 - y) < 5` for a line.
`hypot` is the host Math.hypot. -/
def shouldDiscard (hypot : α → α → α) (ns : Shape α) : Bool :=
  match ns.geom with
  | Geom.rectangle w h _ => decide (|w| < 5) || decide (|h| < 5)
  | Geom.circle r _ => decide (r < 5)
  | Geom.line x2 y2 => decide (hypot (x2 - ns.x) (y2 - ns.y) < 5)

/-- The rectangle normalization of handleMouseUp (App.tsx lines 165-175):
a negative width shifts x by it and Math.abs is stored, likewise height;
circles and lines are committed as they are. -/
def commitShape (ns : Shape α) : Shape α :=
  match ns.geom with
  | Geom.rectangle w h fill =>
    { ns with
      x := if w < 0 then ns.x + w else ns.x,
      y := if h < 0 then ns.y + h else ns.y,
      geom := Geom.rectangle (if w < 0 then |w| else w) (if h < 0 then |h| else h) fill }
  | _ => ns

/-- handleMouseUp (App.tsx lines 152-182), the commit policy: a no-op
unless isDrawing and a draft exists; discards a too-small draft without
touching the shape list, otherwise appends the (rectangle-normalized)
draft; in both cases clears the draft and the drawing flag. -/
def handleMouseUp (hypot : α → α → α) (st : AppState α) : AppState α :=
  match st.isDrawing, st.newShape with
  | true, some ns =>
    if shouldDiscard hypot ns then
      { st with newShape := none, isDrawing := false }
    else
      { st with
        shapes := st.shapes ++ [commitShape ns],
        newShape := none,
        isDrawing := false }
  | _, _ => st

/-- updateShape (App.tsx lines 70-72): maps the list, replacing the shapes
whose id matches with the spread `{ ...s, ...attrs }`.  An attribute record
spread onto a shape is a function of that shape, so attrs is modelled by
the update function it induces. -/
def updateShape (id : String) (f : Shape α → Shape α) (shapes : List (Shape α)) :
    List (Shape α) :=
  shapes.map (fun s => if s.id = id then f s else s)

/-- Spreading a fill attribute onto a shape record.  A LineShape has no
fill field, so the extra key added by the spread is inert: the line's
geometry is unchanged. -/
def setFill (g : Geom α) (f : String) : Geom α :=
  match g with
  | Geom.rectangle w h _ => Geom.rectangle w h f
  | Geom.circle r _ => Geom.circle r f
  | Geom.line a b => Geom.line a b

/-- applyStyleToSelected (App.tsx lines 200-212): a no-op without a
selection; otherwise builds the updates record from the pending style,
adding fill only when the shape found under selectedId is not a line, and
applies it through updateShape. -/
def applyStyleToSelected (st : AppState α) : AppState α :=
  match st.selectedId with
  | none => st
  | some sid =>
    let includeFill : Bool :=
      match st.shapes.find? (fun s => s.id == sid) with
      | some s => !(isLine s)
      | none => false
    { st with
      shapes := updateShape sid (fun s =>
        let s1 := { s with
                    stroke := st.strokeColor,
                    strokeWidth := st.strokeWidth,
                    strokeStyle := st.strokeStyle }
        cond includeFill { s1 with geom := setFill s1.geom st.fillColor } s1)
        st.shapes }

/-- The onClick handler of a rendered shape (App.tsx lines 280-288):
selects it and copies its style into the pending-style cells, the fill
only for non-lines. -/
def selectShape (st : AppState α) (shape : Shape α) : AppState α :=
  let st1 := { st with
               selectedId := some shape.id,
               strokeColor := shape.stroke,
               strokeWidth := shape.strokeWidth,
               strokeStyle := shape.strokeStyle }
  match fillOf shape.geom with
  | some f => { st1 with fillColor := f }
  | none => st1

/-- Spreading the x2/y2 attributes of the line drag onto a shape record;
on a record of another kind the keys are inert extras. -/
def setEndpoint (g : Geom α) (a b : α) : Geom α :=
  match g with
  | Geom.line _ _ => Geom.line a b
  | g2 => g2

/-- The onDragEnd handler of a rendered shape (App.tsx lines 289-304):
for a line, all four coordinates are translated by the reported position
delta; for the other kinds only x and y are set to the reported position. -/
def onDragEnd (st : AppState α) (shape : Shape α) (px py : α) : AppState α :=
  match shape.geom with
  | Geom.line x2 y2 =>
    { st with
      shapes := updateShape shape.id (fun s =>
        { s with
          x := shape.x + px,
          y := shape.y + py,
          geom := setEndpoint s.geom (x2 + px) (y2 + py) }) st.shapes }
  | _ =>
    { st with
      shapes := updateShape shape.id (fun s =>
        { s with x := px, y := py }) st.shapes }

/-- A JSON value, as produced by the host JSON codec.  Numbers are the
rationals a JSON numeral denotes exactly. -/
inductive Jv where
  | num (q : ℚ)
  | str (s : String)
  | arr (elems : List Jv)
  | obj (fields : List (String × Jv))

/-- A string held by the localStorage store, seen through JSON.parse:
either a string that parses to the value v, or a string that JSON.parse
rejects with a SyntaxError.  The empty string is of the second kind and is
also the only falsy string. -/
inductive StoredVal where
  | jv (v : Jv)
  | unparsable (s : String)

/-- The localStorage store: a string-keyed map of stored strings. -/
abbrev Store : Type := String → Option StoredVal

/-- localStorage.getItem. -/
def getItem (store : Store) (k : String) : Option StoredVal := store k

/-- localStorage.setItem. -/
def setItem (store : Store) (k : String) (v : StoredVal) : Store :=
  fun k2 => if k2 = k then some v else store k2

/-- The strokeStyle string of a shape record. -/
def strokeStyleStr : StrokeStyle → String
  | StrokeStyle.solid => "solid"
  | StrokeStyle.dashed => "dashed"

/-- Reading a strokeStyle string back. -/
def strokeStyleOfStr : String → Option StrokeStyle
  | "solid" => some StrokeStyle.solid
  | "dashed" => some StrokeStyle.dashed
  | _ => none

/-- Field lookup in a JSON object. -/
def jlookup (fields : List (String × Jv)) (k : String) : Option Jv :=
  match fields with
  | [] => none
  | (k2, v) :: rest => if k2 = k then some v else jlookup rest k

/-- A field read as a string. -/
def getStr : Option Jv → Option String
  | some (Jv.str s) => some s
  | _ => none

/-- A field read as a number. -/
def getNum : Option Jv → Option ℚ
  | some (Jv.num q) => some q
  | _ => none

/-- The JSON object JSON.stringify produces for one shape record, with the
keys of the object literals of handleMouseDown (App.tsx lines 84-121). -/
def encodeShape (s : Shape ℚ) : Jv :=
  match s.geom with
  | Geom.rectangle w h fill =>
    Jv.obj [("id", Jv.str s.id), ("type", Jv.str "rectangle"),
            ("x", Jv.num s.x), ("y", Jv.num s.y),
            ("width", Jv.num w), ("height", Jv.num h),
            ("fill", Jv.str fill), ("stroke", Jv.str s.stroke),
            ("strokeWidth", Jv.num s.strokeWidth),
            ("strokeStyle", Jv.str (strokeStyleStr s.strokeStyle))]
  | Geom.circle r fill =>
    Jv.obj [("id", Jv.str s.id), ("type", Jv.str "circle"),
            ("x", Jv.num s.x), ("y", Jv.num s.y),
            ("radius", Jv.num r),
            ("fill", Jv.str fill), ("stroke", Jv.str s.stroke),
            ("strokeWidth", Jv.num s.strokeWidth),
            ("strokeStyle", Jv.str (strokeStyleStr s.strokeStyle))]
  | Geom.line x2 y2 =>
    Jv.obj [("id", Jv.str s.id), ("type", Jv.str "line"),
            ("x", Jv.num s.x), ("y", Jv.num s.y),
            ("x2", Jv.num x2), ("y2", Jv.num y2),
            ("stroke", Jv.str s.stroke),
            ("strokeWidth", Jv.num s.strokeWidth),
            ("strokeStyle", Jv.str (strokeStyleStr s.strokeStyle))]

/-- The JSON array JSON.stringify produces for the shape list. -/
def encodeShapes (l : List (Shape ℚ)) : Jv :=
  Jv.arr (l.map encodeShape)

/-- Reading one shape record out of a parsed JSON value.  JSON.parse
returns an untyped value that the component consumes as a shape record;
this is that implicit typed reading, failing on a value outside the shape
of the persisted snapshot format. -/
def decodeShape (v : Jv) : Option (Shape ℚ) :=
  match v with
  | Jv.obj fs => do
    let ty ← getStr (jlookup fs "type")
    let i ← getStr (jlookup fs "id")
    let x ← getNum (jlookup fs "x")
    let y ← getNum (jlookup fs "y")
    let stroke ← getStr (jlookup fs "stroke")
    let sw ← getNum (jlookup fs "strokeWidth")
    let sss ← getStr (jlookup fs "strokeStyle")
    let ss ← strokeStyleOfStr sss
    match ty with
    | "rectangle" => do
      let w ← getNum (jlookup fs "width")
      let h ← getNum (jlookup fs "height")
      let fill ← getStr (jlookup fs "fill")
      pure { id := i, x := x, y := y, stroke := stroke, strokeWidth := sw,
             strokeStyle := ss, geom := Geom.rectangle w h fill }
    | "circle" => do
      let r ← getNum (jlookup fs "radius")
      let fill ← getStr (jlookup fs "fill")
      pure { id := i, x := x, y := y, stroke := stroke, strokeWidth := sw,
             strokeStyle := ss, geom := Geom.circle r fill }
    | "line" => do
      let x2 ← getNum (jlookup fs "x2")
      let y2 ← getNum (jlookup fs "y2")
      pure { id := i, x := x, y := y, stroke := stroke, strokeWidth := sw,
             strokeStyle := ss, geom := Geom.line x2 y2 }
    | _ => none
  | _ => none

/-- Reading a list of shape records element by element. -/
def decodeShapeList : List Jv → Option (List (Shape ℚ))
  | [] => some []
  | v :: rest =>
    match decodeShape v, decodeShapeList rest with
    | some s, some l => some (s :: l)
    | _, _ => none

/-- Reading the whole persisted snapshot. -/
def decodeShapes (v : Jv) : Option (List (Shape ℚ)) :=
  match v with
  | Jv.arr xs => decodeShapeList xs
  | _ => none

/-- saveDrawing (App.tsx lines 184-187):
localStorage.setItem('drawing', JSON.stringify(shapes)). -/
def saveDrawing (store : Store) (shapes : List (Shape ℚ)) : Store :=
  setItem store "drawing" (StoredVal.jv (encodeShapes shapes))

/-- The startup load (App.tsx lines 35-38):
`const saved = localStorage.getItem('drawing'); return saved ?
JSON.parse(saved) : []`.  A null entry, and the empty string (the one
falsy string), yield the empty list; a non-empty unparsable entry makes
JSON.parse throw, which nothing catches, modelled as none; otherwise the
parsed value is consumed as the shape list (its typed reading). -/
def loadShapes (store : Store) : Option (List (Shape ℚ)) :=
  match getItem store "drawing" with
  | none => some []
  | some (StoredVal.unparsable s) => if s = "" then some [] else none
  | some (StoredVal.jv v) => decodeShapes v

/-- The extent condition of the spec, written as the claim states it: both
rectangle axes at least 5 in absolute value, circle radius at least 5, the
Euclidean distance between the line endpoints at least 5. -/
def keepThreshold (ns : Shape ℝ) : Prop :=
  match ns.geom with
  | Geom.rectangle w h _ => 5 ≤ |w| ∧ 5 ≤ |h|
  | Geom.circle r _ => 5 ≤ r
  | Geom.line x2 y2 =>
    5 ≤ Real.sqrt ((x2 - ns.x) * (x2 - ns.x) + (y2 - ns.y) * (y2 - ns.y))

/-- Zero extent of a fresh draft, as the claim states it: width and height
zero, radius zero, or second endpoint equal to the anchor. -/
def zeroExtent (ns : Shape α) : Prop :=
  match ns.geom with
  | Geom.rectangle w h _ => w = 0 ∧ h = 0
  | Geom.circle r _ => r = 0
  | Geom.line a b => a = ns.x ∧ b = ns.y

/-- The kind and fill of a geometry, the part the draft updater never
touches. -/
def kindFill : Geom α → ShapeType × Option String
  | Geom.rectangle _ _ f => (ShapeType.rectangle, some f)
  | Geom.circle _ f => (ShapeType.circle, some f)
  | Geom.line _ _ => (ShapeType.line, none)

theorem decode_encode_shape (s : Shape ℚ) : decodeShape (encodeShape s) = some s := by
  obtain ⟨i, x, y, stroke, sw, ss, geom⟩ := s
  cases geom <;> cases ss <;> rfl

theorem decodeShapeList_encode (l : List (Shape ℚ)) :
    decodeShapeList (l.map encodeShape) = some l := by
  induction l with
  | nil => rfl
  | cons s rest ih =>
    simp only [List.map_cons, decodeShapeList, decode_encode_shape, ih]

/-- C4: loading after saving returns the original shape list: saveDrawing
writes the JSON image of the list under the key 'drawing', the startup
load finds it there, and the typed reading of that image is the list
itself, for every starting store and every non-empty list. -/
theorem c4_save_load_round_trip (store : Store) (l : List (Shape ℚ)) (h : l ≠ []) :
    loadShapes (saveDrawing store l) = some l ∧
    decodeShapes (encodeShapes l) = some l := by
  constructor
  · simp [loadShapes, saveDrawing, getItem, setItem, decodeShapes, encodeShapes,
      decodeShapeList_encode]
  · simp [decodeShapes, encodeShapes, decodeShapeList_encode]

/-- Witness for C4 at a concrete store and a three-shape list holding one
rectangle, one circle and one line. -/
theorem c4_save_load_round_trip_witness :
    loadShapes (saveDrawing (fun _ => none)
      [{ id := "r1", x := 10, y := 20, stroke := "#000000", strokeWidth := 2,
         strokeStyle := StrokeStyle.solid, geom := Geom.rectangle 40 30 "#88ccff" },
       { id := "c1", x := 5, y := 6, stroke := "#ff0000", strokeWidth := 3,
         strokeStyle := StrokeStyle.dashed, geom := Geom.circle 7 "#00ff00" },
       { id := "l1", x := 0, y := 0, stroke := "#0000ff", strokeWidth := 1,
         strokeStyle := StrokeStyle.solid, geom := Geom.line 8 9 }]) =
    some
      [{ id := "r1", x := 10, y := 20, stroke := "#000000", strokeWidth := 2,
         strokeStyle := StrokeStyle.solid, geom := Geom.rectangle 40 30 "#88ccff" },
       { id := "c1", x := 5, y := 6, stroke := "#ff0000", strokeWidth := 3,
         strokeStyle := StrokeStyle.dashed, geom := Geom.circle 7 "#00ff00" },
       { id := "l1", x := 0, y := 0, stroke := "#0000ff", strokeWidth := 1,
         strokeStyle := StrokeStyle.solid, geom := Geom.line 8 9 }] :=
  (c4_save_load_round_trip (fun _ => none) _ (List.cons_ne_nil _ _)).1

/-- C3 as stated is false on the code: a store whose 'drawing' entry is a
non-empty string rejected by JSON.parse does not load as the empty list;
the parse error propagates (there is no catch around JSON.parse). -/
theorem c3_counterexample :
    loadShapes (fun k => if k = "drawing"
      then some (StoredVal.unparsable "oops") else none) ≠ some [] := by
  simp [loadShapes, getItem]

/-- C3 amended: an absent entry, and the empty string (the one falsy
string, which short-circuits before JSON.parse), load as the empty list;
a non-empty entry that JSON.parse rejects makes the load fail with an
uncaught parse error instead of an empty list. -/
theorem c3_load_fail_open_only_when_absent (store : Store) (s : String) :
    (getItem store "drawing" = none → loadShapes store = some []) ∧
    (getItem store "drawing" = some (StoredVal.unparsable "") → loadShapes store = some []) ∧
    (getItem store "drawing" = some (StoredVal.unparsable s) → s ≠ "" →
      loadShapes store = none) := by
  refine ⟨fun h => ?_, fun h => ?_, fun h hne => ?_⟩
  · simp [loadShapes, h]
  · simp [loadShapes, h]
  · simp [loadShapes, h, hne]

/-- Witness for C3's amended statement on the empty store. -/
theorem c3_load_fail_open_only_when_absent_witness :
    loadShapes (fun _ => none) = some [] :=
  (c3_load_fail_open_only_when_absent (fun _ => none) "x").1 rfl

/-- C5: for every tool and pointer-down point on empty canvas the draft
builder succeeds, leaving the shape list alone, setting drafting in
progress, clearing the selection, and producing a draft with the supplied
fresh id, anchored at the point, with zero extent and the pending style
copied in (fill only for the filled kinds). -/
theorem c5_draft_builder (st : AppState ℝ) (id : String) (px py : ℝ) :
    (handleMouseDown st id px py).isDrawing = true ∧
    (handleMouseDown st id px py).selectedId = none ∧
    (handleMouseDown st id px py).shapes = st.shapes ∧
    ∃ ns, (handleMouseDown st id px py).newShape = some ns ∧
      ns.id = id ∧ ns.x = px ∧ ns.y = py ∧
      ns.stroke = st.strokeColor ∧ ns.strokeWidth = st.strokeWidth ∧
      ns.strokeStyle = st.strokeStyle ∧ ns.geom.kind = st.tool ∧
      fillOf ns.geom = (match st.tool with
        | ShapeType.line => none
        | _ => some st.fillColor) ∧
      zeroExtent ns := by
  cases htool : st.tool <;>
    simp [handleMouseDown, htool, Geom.kind, fillOf, zeroExtent]

/-- C8: clicking shape a and then shape b leaves b selected and the
pending-style cells overwritten with b's stroke color, stroke width and
stroke style; the pending fill is b's fill when b has one, and is left at
the previous value (a's fill, else the original) when b is a line. -/
theorem c8_select_overwrites (st : AppState ℝ) (a b : Shape ℝ) :
    (selectShape (selectShape st a) b).selectedId = some b.id ∧
    (selectShape (selectShape st a) b).strokeColor = b.stroke ∧
    (selectShape (selectShape st a) b).strokeWidth = b.strokeWidth ∧
    (selectShape (selectShape st a) b).strokeStyle = b.strokeStyle ∧
    (selectShape (selectShape st a) b).fillColor =
      (match fillOf b.geom with
       | some f => f
       | none => match fillOf a.geom with
         | some g => g
         | none => st.fillColor) := by
  cases ha : a.geom <;> cases hb : b.geom <;>
    simp [selectShape, fillOf, ha, hb]

/-- C10: updateShape preserves the length and order of the shape list,
leaves every shape whose id differs untouched, and returns the list
unchanged when no shape carries the id.  An attribute record spread is
modelled by the update function f it induces on the matching shape. -/
theorem c10_updateShape_frame (id : String) (f : Shape ℝ → Shape ℝ)
    (shapes : List (Shape ℝ)) (i : ℕ) (t : Shape ℝ) :
    (updateShape id f shapes).length = shapes.length ∧
    (shapes[i]? = some t → t.id ≠ id → (updateShape id f shapes)[i]? = some t) ∧
    ((∀ u ∈ shapes, u.id ≠ id) → updateShape id f shapes = shapes) := by
  refine ⟨by simp [updateShape], fun ht hne => ?_, fun hall => ?_⟩
  · simp [updateShape, List.getElem?_map, ht, hne]
  · have hcong : ∀ s ∈ shapes, (if s.id = id then f s else s) = s :=
      fun s hs => if_neg (hall s hs)
    calc updateShape id f shapes
        = shapes.map (fun s => s) := List.map_congr_left hcong
      _ = shapes := List.map_id' shapes

/-- Witness for C10 on a one-element list whose id differs from the
updated id. -/
theorem c10_updateShape_frame_witness :
    updateShape "z" (fun s : Shape ℝ => { s with x := 99 })
      [({ id := "a", x := 1, y := 2, stroke := "#000000", strokeWidth := 2,
          strokeStyle := StrokeStyle.solid,
          geom := Geom.rectangle 40 30 "#88ccff" } : Shape ℝ)] =
    [({ id := "a", x := 1, y := 2, stroke := "#000000", strokeWidth := 2,
        strokeStyle := StrokeStyle.solid,
        geom := Geom.rectangle 40 30 "#88ccff" } : Shape ℝ)] :=
  (c10_updateShape_frame "z" (fun s : Shape ℝ => { s with x := 99 })
    [({ id := "a", x := 1, y := 2, stroke := "#000000", strokeWidth := 2,
        strokeStyle := StrokeStyle.solid,
        geom := Geom.rectangle 40 30 "#88ccff" } : Shape ℝ)] 0
    ({ id := "a", x := 1, y := 2, stroke := "#000000", strokeWidth := 2,
       strokeStyle := StrokeStyle.solid,
       geom := Geom.rectangle 40 30 "#88ccff" } : Shape ℝ)).2.2 (by
    intro u hu
    rw [List.mem_singleton] at hu
    subst hu
    decide)

/-- C9: dragging a committed line translates x, y, x2, y2 by the same
reported delta, so the endpoint offset is unchanged; dragging a rectangle
or circle rewrites only x and y, leaving the geometry (hence the extent)
as it was. -/
theorem c9_drag_preserves_offset (st : AppState ℝ) (shape : Shape ℝ)
    (px py : ℝ) (i : ℕ) (ht : st.shapes[i]? = some shape) :
    (∀ x2 y2, shape.geom = Geom.line x2 y2 →
      (onDragEnd st shape px py).shapes[i]? = some
        { shape with
          x := shape.x + px, y := shape.y + py,
          geom := Geom.line (x2 + px) (y2 + py) } ∧
      (x2 + px) - (shape.x + px) = x2 - shape.x ∧
      (y2 + py) - (shape.y + py) = y2 - shape.y) ∧
    (isLine shape = false →
      (onDragEnd st shape px py).shapes[i]? =
        some { shape with x := px, y := py }) := by
  constructor
  · intro x2 y2 hg
    refine ⟨?_, by ring, by ring⟩
    simp [onDragEnd, hg, updateShape, List.getElem?_map, ht, setEndpoint]
  · intro hline
    cases hg : shape.geom with
    | line a b => simp [isLine, hg] at hline
    | rectangle w h fl => simp [onDragEnd, hg, updateShape, List.getElem?_map, ht]
    | circle r fl => simp [onDragEnd, hg, updateShape, List.getElem?_map, ht]

/-- Witness for C9 on a concrete committed line dragged by (10, 20). -/
theorem c9_drag_preserves_offset_witness :
    (onDragEnd
      ({ shapes := [{ id := "l1", x := 1, y := 2, stroke := "#000000",
                      strokeWidth := 2, strokeStyle := StrokeStyle.solid,
                      geom := Geom.line 4 6 }],
         tool := ShapeType.line, selectedId := none, strokeColor := "#000000",
         fillColor := "#88ccff", strokeWidth := 2,
         strokeStyle := StrokeStyle.solid, isDrawing := false,
         newShape := none } : AppState ℝ)
      { id := "l1", x := 1, y := 2, stroke := "#000000", strokeWidth := 2,
        strokeStyle := StrokeStyle.solid, geom := Geom.line 4 6 }
      10 20).shapes[0]? = some
      { id := "l1", x := 1 + 10, y := 2 + 20, stroke := "#000000",
        strokeWidth := 2, strokeStyle := StrokeStyle.solid,
        geom := Geom.line (4 + 10) (6 + 20) } :=
  ((c9_drag_preserves_offset
    ({ shapes := [{ id := "l1", x := 1, y := 2, stroke := "#000000",
                    strokeWidth := 2, strokeStyle := StrokeStyle.solid,
                    geom := Geom.line 4 6 }],
       tool := ShapeType.line, selectedId := none, strokeColor := "#000000",
       fillColor := "#88ccff", strokeWidth := 2,
       strokeStyle := StrokeStyle.solid, isDrawing := false,
       newShape := none } : AppState ℝ)
    ({ id := "l1", x := 1, y := 2, stroke := "#000000", strokeWidth := 2,
       strokeStyle := StrokeStyle.solid, geom := Geom.line 4 6 } : Shape ℝ)
    10 20 0 rfl).1 4 6 rfl).1

/-- C7: applying the pending style is a no-op without a selection;
with shape s found under the selected id, the update overwrites the
matching shape's stroke color, width and style, and its fill unless s is a
line; the list keeps its length and order, shapes with another id are left
untouched, and a fill write onto a line-kind record never changes its
geometry. -/
theorem c7_apply_style_frame (st : AppState ℝ) (sid : String) (s t : Shape ℝ)
    (i : ℕ) (c : String)
    (hsel : st.selectedId = some sid)
    (hs : st.shapes.find? (fun u => u.id == sid) = some s)
    (ht : st.shapes[i]? = some t) :
    applyStyleToSelected { st with selectedId := none } =
      { st with selectedId := none } ∧
    (applyStyleToSelected st).shapes.length = st.shapes.length ∧
    (t.id ≠ sid → (applyStyleToSelected st).shapes[i]? = some t) ∧
    (t.id = sid → (applyStyleToSelected st).shapes[i]? = some
      { t with
        stroke := st.strokeColor,
        strokeWidth := st.strokeWidth,
        strokeStyle := st.strokeStyle,
        geom := cond (isLine s) t.geom (setFill t.geom st.fillColor) }) ∧
    (isLine t = true → setFill t.geom c = t.geom) := by
  refine ⟨rfl, ?_, fun hne => ?_, fun heq => ?_, fun hline => ?_⟩
  · simp [applyStyleToSelected, hsel, hs, updateShape]
  · simp [applyStyleToSelected, hsel, hs, updateShape, List.getElem?_map, ht, hne]
  · cases hline : isLine s <;>
      simp [applyStyleToSelected, hsel, hs, hline, updateShape,
        List.getElem?_map, ht, heq]
  · cases hg : t.geom with
    | line a b => simp [setFill]
    | rectangle w h fl => simp [isLine, hg] at hline
    | circle r fl => simp [isLine, hg] at hline

/-- Witness for C7: a selected rectangle receives the whole pending style,
fill included. -/
theorem c7_apply_style_frame_witness :
    (applyStyleToSelected
      ({ shapes := [{ id := "r1", x := 1, y := 2, stroke := "#000000",
                      strokeWidth := 2, strokeStyle := StrokeStyle.solid,
                      geom := Geom.rectangle 40 30 "#88ccff" }],
         tool := ShapeType.rectangle, selectedId := some "r1",
         strokeColor := "#111111", fillColor := "#222222", strokeWidth := 5,
         strokeStyle := StrokeStyle.dashed, isDrawing := false,
         newShape := none } : AppState ℝ)).shapes[0]? = some
      { id := "r1", x := 1, y := 2, stroke := "#111111", strokeWidth := 5,
        strokeStyle := StrokeStyle.dashed,
        geom := Geom.rectangle 40 30 "#222222" } :=
  (c7_apply_style_frame
    ({ shapes := [{ id := "r1", x := 1, y := 2, stroke := "#000000",
                    strokeWidth := 2, strokeStyle := StrokeStyle.solid,
                    geom := Geom.rectangle 40 30 "#88ccff" }],
       tool := ShapeType.rectangle, selectedId := some "r1",
       strokeColor := "#111111", fillColor := "#222222", strokeWidth := 5,
       strokeStyle := StrokeStyle.dashed, isDrawing := false,
       newShape := none } : AppState ℝ)
    "r1"
    ({ id := "r1", x := 1, y := 2, stroke := "#000000", strokeWidth := 2,
       strokeStyle := StrokeStyle.solid,
       geom := Geom.rectangle 40 30 "#88ccff" } : Shape ℝ)
    ({ id := "r1", x := 1, y := 2, stroke := "#000000", strokeWidth := 2,
       strokeStyle := StrokeStyle.solid,
       geom := Geom.rectangle 40 30 "#88ccff" } : Shape ℝ)
    0 "#333333" rfl rfl rfl).2.2.2.1 rfl

theorem handleMouseUp_drawing (hypot : α → α → α) (st : AppState α) (ns : Shape α)
    (h1 : st.isDrawing = true) (h2 : st.newShape = some ns) :
    handleMouseUp hypot st =
      if shouldDiscard hypot ns then
        { st with newShape := none, isDrawing := false }
      else
        { st with
          shapes := st.shapes ++ [commitShape ns],
          newShape := none,
          isDrawing := false } := by
  unfold handleMouseUp
  rw [h1, h2]

theorem shouldDiscard_false_iff (ns : Shape ℝ) :
    shouldDiscard (fun a b => Real.sqrt (a * a + b * b)) ns = false ↔
      keepThreshold ns := by
  cases hg : ns.geom <;>
    simp [shouldDiscard, keepThreshold, hg, not_lt]

/-- C1: with a draft pending at pointer-up, something is appended to the
shape list exactly when the draft clears the 5-unit extent threshold (both
rectangle axes, circle radius, or Euclidean endpoint distance, each
compared inclusively at 5); the kept draft is appended normalized, and a
discarded draft leaves the shape list untouched. -/
theorem c1_commit_threshold (st : AppState ℝ) (ns : Shape ℝ)
    (h1 : st.isDrawing = true) (h2 : st.newShape = some ns) :
    ((∃ c2, (handleMouseUp (fun a b => Real.sqrt (a * a + b * b)) st).shapes =
        st.shapes ++ [c2]) ↔ keepThreshold ns) ∧
    (keepThreshold ns →
      (handleMouseUp (fun a b => Real.sqrt (a * a + b * b)) st).shapes =
        st.shapes ++ [commitShape ns]) ∧
    (¬ keepThreshold ns →
      (handleMouseUp (fun a b => Real.sqrt (a * a + b * b)) st).shapes =
        st.shapes) := by
  rw [handleMouseUp_drawing (fun a b => Real.sqrt (a * a + b * b)) st ns h1 h2]
  cases hb : shouldDiscard (fun a b => Real.sqrt (a * a + b * b)) ns with
  | false =>
    have hk : keepThreshold ns := (shouldDiscard_false_iff ns).mp hb
    rw [if_neg Bool.false_ne_true]
    exact ⟨⟨fun _ => hk, fun _ => ⟨commitShape ns, rfl⟩⟩,
      fun _ => rfl, fun hnk => absurd hk hnk⟩
  | true =>
    have hk : ¬ keepThreshold ns := fun h => by
      rw [(shouldDiscard_false_iff ns).mpr h] at hb
      exact Bool.noConfusion hb
    rw [if_pos rfl]
    refine ⟨⟨fun hc => ?_, fun h => absurd h hk⟩, fun h => absurd h hk, fun _ => rfl⟩
    obtain ⟨c2, hc2⟩ := hc
    have := congrArg List.length hc2
    simp at this

/-- Witness for C1: a line draft from (0,0) to (3,4) has Euclidean length
exactly 5, so pointer-up appends it. -/
theorem c1_commit_threshold_witness :
    (handleMouseUp (fun a b => Real.sqrt (a * a + b * b))
      ({ shapes := [], tool := ShapeType.line, selectedId := none,
         strokeColor := "#000000", fillColor := "#88ccff", strokeWidth := 2,
         strokeStyle := StrokeStyle.solid, isDrawing := true,
         newShape := some
           { id := "l1", x := 0, y := 0, stroke := "#000000",
             strokeWidth := 2, strokeStyle := StrokeStyle.solid,
             geom := Geom.line 3 4 } } : AppState ℝ)).shapes =
    [{ id := "l1", x := 0, y := 0, stroke := "#000000", strokeWidth := 2,
       strokeStyle := StrokeStyle.solid, geom := Geom.line 3 4 }] :=
  (c1_commit_threshold
    ({ shapes := [], tool := ShapeType.line, selectedId := none,
       strokeColor := "#000000", fillColor := "#88ccff", strokeWidth := 2,
       strokeStyle := StrokeStyle.solid, isDrawing := true,
       newShape := some
         { id := "l1", x := 0, y := 0, stroke := "#000000",
           strokeWidth := 2, strokeStyle := StrokeStyle.solid,
           geom := Geom.line 3 4 } } : AppState ℝ)
    ({ id := "l1", x := 0, y := 0, stroke := "#000000", strokeWidth := 2,
       strokeStyle := StrokeStyle.solid, geom := Geom.line 3 4 } : Shape ℝ)
    rfl rfl).2.1 (by
    show (5 : ℝ) ≤ Real.sqrt (((3 : ℝ) - 0) * (3 - 0) + (4 - 0) * (4 - 0))
    rw [show ((3 : ℝ) - 0) * (3 - 0) + (4 - 0) * (4 - 0) = 5 ^ 2 by norm_num,
      Real.sqrt_sq (by norm_num : (0 : ℝ) ≤ 5)])

/-- C2: a draft that passes the size check is appended as commitShape of
the draft; for a rectangle the stored anchor is shifted by a negative
width/height and the absolute value is stored, with id and the style
fields untouched; circles and lines are appended exactly as drafted.
The host hypot only feeds the size check, so it is arbitrary here. -/
theorem c2_commit_normalization (hypot : ℝ → ℝ → ℝ) (st : AppState ℝ)
    (ns : Shape ℝ) (h1 : st.isDrawing = true) (h2 : st.newShape = some ns)
    (hkeep : shouldDiscard hypot ns = false) :
    (handleMouseUp hypot st).shapes = st.shapes ++ [commitShape ns] ∧
    (∀ w h fl, ns.geom = Geom.rectangle w h fl →
      (commitShape ns).x = (if w < 0 then ns.x + w else ns.x) ∧
      (commitShape ns).y = (if h < 0 then ns.y + h else ns.y) ∧
      (commitShape ns).geom = Geom.rectangle |w| |h| fl ∧
      (commitShape ns).id = ns.id ∧
      (commitShape ns).stroke = ns.stroke ∧
      (commitShape ns).strokeWidth = ns.strokeWidth ∧
      (commitShape ns).strokeStyle = ns.strokeStyle) ∧
    (∀ r fl, ns.geom = Geom.circle r fl → commitShape ns = ns) ∧
    (∀ a b, ns.geom = Geom.line a b → commitShape ns = ns) := by
  refine ⟨?_, ?_, ?_, ?_⟩
  · rw [handleMouseUp_drawing hypot st ns h1 h2, hkeep,
      if_neg Bool.false_ne_true]
  · intro w h fl hg
    obtain ⟨i, x, y, strk, sw, ss, g⟩ := ns
    simp only at hg
    subst hg
    refine ⟨rfl, rfl, ?_, rfl, rfl, rfl, rfl⟩
    show Geom.rectangle (if w < 0 then |w| else w) (if h < 0 then |h| else h) fl =
      Geom.rectangle |w| |h| fl
    rcases lt_or_le w 0 with hw | hw <;> rcases lt_or_le h 0 with hh | hh <;>
      simp [hw, hh, not_lt.mpr, abs_of_nonneg]
  · intro r fl hg
    obtain ⟨i, x, y, strk, sw, ss, g⟩ := ns
    simp only at hg
    subst hg
    rfl
  · intro a b hg
    obtain ⟨i, x, y, strk, sw, ss, g⟩ := ns
    simp only at hg
    subst hg
    rfl

/-- Witness for C2: the rectangle draft with width -40 and height 30 at
anchor (100, 100) commits with x = 60, y = 100, width 40, height 30, and
its id and style fields unchanged. -/
theorem c2_commit_normalization_witness :
    (commitShape
      ({ id := "r1", x := 100, y := 100, stroke := "#000000",
         strokeWidth := 2, strokeStyle := StrokeStyle.solid,
         geom := Geom.rectangle (-40) 30 "#88ccff" } : Shape ℝ)).x = 60 ∧
    (commitShape
      ({ id := "r1", x := 100, y := 100, stroke := "#000000",
         strokeWidth := 2, strokeStyle := StrokeStyle.solid,
         geom := Geom.rectangle (-40) 30 "#88ccff" } : Shape ℝ)).y = 100 ∧
    (commitShape
      ({ id := "r1", x := 100, y := 100, stroke := "#000000",
         strokeWidth := 2, strokeStyle := StrokeStyle.solid,
         geom := Geom.rectangle (-40) 30 "#88ccff" } : Shape ℝ)).geom =
      Geom.rectangle 40 30 "#88ccff" := by
  have hc := (c2_commit_normalization (fun _ _ => 0)
    ({ shapes := [], tool := ShapeType.rectangle, selectedId := none,
       strokeColor := "#000000", fillColor := "#88ccff", strokeWidth := 2,
       strokeStyle := StrokeStyle.solid, isDrawing := true,
       newShape := some
         { id := "r1", x := 100, y := 100, stroke := "#000000",
           strokeWidth := 2, strokeStyle := StrokeStyle.solid,
           geom := Geom.rectangle (-40) 30 "#88ccff" } } : AppState ℝ)
    ({ id := "r1", x := 100, y := 100, stroke := "#000000", strokeWidth := 2,
       strokeStyle := StrokeStyle.solid,
       geom := Geom.rectangle (-40) 30 "#88ccff" } : Shape ℝ)
    rfl rfl (by norm_num [shouldDiscard])).2.1 (-40) 30 "#88ccff" rfl
  refine ⟨?_, ?_, ?_⟩
  · rw [hc.1]
    norm_num
  · rw [hc.2.1]
    norm_num
  · rw [hc.2.2.1]
    norm_num

theorem handleMouseMove_drawing (sqrt : α → α) (st : AppState α) (ns : Shape α)
    (h1 : st.isDrawing = true) (h2 : st.newShape = some ns) (px py : α) :
    handleMouseMove sqrt st px py =
      { st with newShape := some (moveDraft sqrt ns px py) } := by
  unfold handleMouseMove
  rw [h1, h2]

theorem moveDraft_core (sqrt : α → α) (ns : Shape α) (px py : α) :
    (moveDraft sqrt ns px py).id = ns.id ∧
    (moveDraft sqrt ns px py).x = ns.x ∧
    (moveDraft sqrt ns px py).y = ns.y ∧
    kindFill (moveDraft sqrt ns px py).geom = kindFill ns.geom := by
  cases hg : ns.geom <;> simp [moveDraft, hg, kindFill]

theorem processMoves_drawing (sqrt : α → α) (ps : List (α × α)) :
    ∀ (st : AppState α) (ns : Shape α),
      st.isDrawing = true → st.newShape = some ns →
      processMoves sqrt st ps =
        { st with
          newShape := some (ps.foldl (fun d p => moveDraft sqrt d p.1 p.2) ns) } := by
  induction ps with
  | nil =>
    intro st ns h1 h2
    show st = { st with newShape := some ns }
    rw [← h2]
  | cons p ps ih =>
    intro st ns h1 h2
    show processMoves sqrt (handleMouseMove sqrt st p.1 p.2) ps = _
    rw [handleMouseMove_drawing sqrt st ns h1 h2 p.1 p.2]
    exact ih _ (moveDraft sqrt ns p.1 p.2) h1 rfl

theorem foldl_moveDraft_core (sqrt : α → α) (ps : List (α × α)) :
    ∀ ns : Shape α,
      (ps.foldl (fun d p => moveDraft sqrt d p.1 p.2) ns).id = ns.id ∧
      (ps.foldl (fun d p => moveDraft sqrt d p.1 p.2) ns).x = ns.x ∧
      (ps.foldl (fun d p => moveDraft sqrt d p.1 p.2) ns).y = ns.y ∧
      kindFill (ps.foldl (fun d p => moveDraft sqrt d p.1 p.2) ns).geom =
        kindFill ns.geom := by
  induction ps with
  | nil => intro ns; exact ⟨rfl, rfl, rfl, rfl⟩
  | cons p ps ih =>
    intro ns
    simp only [List.foldl_cons]
    obtain ⟨ha, hb, hc, hd⟩ := ih (moveDraft sqrt ns p.1 p.2)
    obtain ⟨ea, eb, ec, ed⟩ := moveDraft_core sqrt ns p.1 p.2
    exact ⟨ha.trans ea, hb.trans eb, hc.trans ec, hd.trans ed⟩

/-- C6: after any sequence of pointer moves ending at (px, py), the draft
geometry is the one computed from (px, py) and the unchanged anchor alone
(signed width/height for a rectangle, Math.sqrt of the squared offsets for
a circle, the raw endpoint for a line), with no drift from the
intermediate moves; and the updater leaves the state unchanged whenever
drafting is not in progress (isDrawing false or no draft). -/
theorem c6_updater_last_point (st : AppState ℝ) (ns : Shape ℝ)
    (moves : List (ℝ × ℝ)) (px py : ℝ)
    (h1 : st.isDrawing = true) (h2 : st.newShape = some ns) :
    (∃ ns2, (processMoves Real.sqrt st (moves ++ [(px, py)])).newShape = some ns2 ∧
      ns2.id = ns.id ∧ ns2.x = ns.x ∧ ns2.y = ns.y ∧
      (∀ w h fl, ns.geom = Geom.rectangle w h fl →
        ns2.geom = Geom.rectangle (px - ns.x) (py - ns.y) fl) ∧
      (∀ r fl, ns.geom = Geom.circle r fl →
        ns2.geom = Geom.circle
          (Real.sqrt ((px - ns.x) * (px - ns.x) + (py - ns.y) * (py - ns.y))) fl) ∧
      (∀ a b, ns.geom = Geom.line a b → ns2.geom = Geom.line px py)) ∧
    handleMouseMove Real.sqrt { st with isDrawing := false } px py =
      { st with isDrawing := false } ∧
    handleMouseMove Real.sqrt { st with newShape := none } px py =
      { st with newShape := none } := by
  refine ⟨?_, ?_, ?_⟩
  · rw [processMoves_drawing Real.sqrt (moves ++ [(px, py)]) st ns h1 h2]
    rw [List.foldl_append]
    simp only [List.foldl_cons, List.foldl_nil]
    obtain ⟨hid, hx, hy, hk⟩ := foldl_moveDraft_core Real.sqrt moves ns
    set d := moves.foldl (fun d2 p => moveDraft Real.sqrt d2 p.1 p.2) ns
    obtain ⟨mid, mx, my, _⟩ := moveDraft_core Real.sqrt d px py
    refine ⟨moveDraft Real.sqrt d px py, rfl, mid.trans hid, mx.trans hx,
      my.trans hy, ?_, ?_, ?_⟩
    · intro w h fl hg
      rw [hg] at hk
      cases hgd : d.geom with
      | rectangle w2 h2 f2 =>
        rw [hgd] at hk
        simp [kindFill] at hk
        simp [moveDraft, hgd, hx, hy, hk]
      | circle r2 f2 => rw [hgd] at hk; simp [kindFill] at hk
      | line a2 b2 => rw [hgd] at hk; simp [kindFill] at hk
    · intro r fl hg
      rw [hg] at hk
      cases hgd : d.geom with
      | circle r2 f2 =>
        rw [hgd] at hk
        simp [kindFill] at hk
        simp [moveDraft, hgd, hx, hy, hk]
      | rectangle w2 h2 f2 => rw [hgd] at hk; simp [kindFill] at hk
      | line a2 b2 => rw [hgd] at hk; simp [kindFill] at hk
    · intro a b hg
      rw [hg] at hk
      cases hgd : d.geom with
      | line a2 b2 => simp [moveDraft, hgd]
      | rectangle w2 h2 f2 => rw [hgd] at hk; simp [kindFill] at hk
      | circle r2 f2 => rw [hgd] at hk; simp [kindFill] at hk
  · obtain ⟨shs, tool, sel, sc, fc, sw, ss, isd, nsh⟩ := st
    cases nsh <;> rfl
  · obtain ⟨shs, tool, sel, sc, fc, sw, ss, isd, nsh⟩ := st
    cases isd <;> rfl

/-- Witness for C6: a circle draft anchored at the origin, moved through
(1,1) and ending at (3,4), carries radius Math.sqrt(3*3 + 4*4) computed
from the final point alone. -/
theorem c6_updater_last_point_witness :
    ∃ ns2, (processMoves Real.sqrt
      ({ shapes := [], tool := ShapeType.circle, selectedId := none,
         strokeColor := "#000000", fillColor := "#00ff00", strokeWidth := 2,
         strokeStyle := StrokeStyle.solid, isDrawing := true,
         newShape := some
           { id := "c1", x := 0, y := 0, stroke := "#000000",
             strokeWidth := 2, strokeStyle := StrokeStyle.solid,
             geom := Geom.circle 0 "#00ff00" } } : AppState ℝ)
      [(1, 1), (3, 4)]).newShape = some ns2 ∧
      ns2.x = 0 ∧ ns2.y = 0 ∧
      ns2.geom = Geom.circle
        (Real.sqrt (((3 : ℝ) - 0) * (3 - 0) + (4 - 0) * (4 - 0))) "#00ff00" := by
  obtain ⟨⟨ns2, hsome, _, hx, hy, _, hcirc, _⟩, _, _⟩ :=
    c6_updater_last_point
      ({ shapes := [], tool := ShapeType.circle, selectedId := none,
         strokeColor := "#000000", fillColor := "#00ff00", strokeWidth := 2,
         strokeStyle := StrokeStyle.solid, isDrawing := true,
         newShape := some
           { id := "c1", x := 0, y := 0, stroke := "#000000",
             strokeWidth := 2, strokeStyle := StrokeStyle.solid,
             geom := Geom.circle 0 "#00ff00" } } : AppState ℝ)
      ({ id := "c1", x := 0, y := 0, stroke := "#000000", strokeWidth := 2,
         strokeStyle := StrokeStyle.solid,
         geom := Geom.circle 0 "#00ff00" } : Shape ℝ)
      [(1, 1)] 3 4 rfl rfl
  exact ⟨ns2, hsome, hx, hy, hcirc 0 "#00ff00" rfl⟩
